import Mathlib

/-!
Verification of the order-lifecycle engine of the BDF Delivery cockpit
(`src/main.py`): the `Pedido` (Order) entity, the `OrderController`
mutation operations, the UI-level cancel and observation helpers, the
alert derivation of `OrderCard.refresh_ui_content`, and the route
assignment session of `Dashboard`.

Shallow embedding conventions:
* Peewee rows become Lean structures; `FloatField` amounts are embedded
  as `Rat` (the program only adds them, so exact arithmetic is faithful);
  nullable fields become `Option`; timestamps are omitted (the spec says
  they are never used for business decisions).
* Python in-place mutation plus `save()` becomes a pure function from the
  old row to the new row; each controller call also returns the list of
  `LogAtividade` rows it appended, and an `Option String` recording the
  exception it raised (`none` = returned normally).  A raise in the
  source happens before any field assignment, so on a raise the returned
  row is the unchanged input and the appended log list is empty, exactly
  as in Python.
* Python `str.upper()` is embedded as `pyUpper`, covering the character
  repertoire this program actually uses (ASCII plus the Portuguese
  letters of "BALCÃO"); Python `str.strip()` is embedded as `pyStrip`
  (surrounding whitespace removed on both ends).  Both work on the
  character list of the string so that concrete instances evaluate in
  the kernel.
* Python truthiness of an `Optional[str]` (`if s:`) is `obsTruthy`.
-/

namespace BDF

/-- Python `str.upper` on one character, for the repertoire used by the
program: ASCII letters via `Char.toUpper`, plus the accented letters
appearing in the channel and payment strings. -/
def pyUpperChar (c : Char) : Char :=
  if c = 'ã' then 'Ã'
  else if c = 'á' then 'Á'
  else if c = 'ç' then 'Ç'
  else if c = 'õ' then 'Õ'
  else if c = 'é' then 'É'
  else c.toUpper

/-- Python `str.upper` (restricted to this program's characters). -/
def pyUpper (s : String) : String := ⟨s.data.map pyUpperChar⟩

/-- Python `str.strip()`: whitespace removed from both ends. -/
def pyStrip (s : String) : String :=
  ⟨((s.data.dropWhile Char.isWhitespace).reverse.dropWhile Char.isWhitespace).reverse⟩

/-- Truthiness of a Python `Optional[str]`: `None` and `""` are falsy. -/
def obsTruthy : Option String → Bool
  | none => false
  | some s => !s.isEmpty

/-- Row of `Motoboy` (courier): unique name and active flag. -/
structure Motoboy where
  nome : String
  ativo : Bool
deriving DecidableEq, Repr

/-- Row of `Pedido` (order).  `bairro` is kept as the neighborhood name,
`motoboy` as the embedded courier row; `criado_em` is omitted. -/
structure Pedido where
  id : Nat
  cliente : String
  canal : String
  status : String
  valor_produtos : Rat
  taxa_entrega : Rat
  valor_total : Rat
  bairro : Option String
  motoboy : Option Motoboy
  forma_pagamento : String
  pix_confirmado : Bool
  observacao : Option String
deriving DecidableEq, Repr

/-- Row of `LogAtividade`: acting user's login, action text, and the id of
the referenced order (`none` when no order is attached). -/
structure LogAtividade where
  usuario : String
  acao : String
  pedido : Option Nat
deriving DecidableEq, Repr

/-- Result of one controller/UI operation on one order: `raised` is the
exception message (`none` means the call returned normally), `pedido`
the order row as left by the call, `logs` the `LogAtividade` rows the
call appended. -/
structure OpResult where
  raised : Option String
  pedido : Pedido
  logs : List LogAtividade
deriving DecidableEq, Repr

/-- Embedding of `OrderController.confirm_pix`: sets `pix_confirmado = True`; if the
status is `"PIX PENDENTE"` advances it to `"EM PREPARO"`; saves and logs
`"Confirmou PIX"`.  The source has no guard on the payment method and no
raise path. -/
def confirm_pix (u : String) (p : Pedido) : OpResult :=
  let p1 : Pedido := { p with pix_confirmado := true }
  let p2 : Pedido :=
    if p1.status = "PIX PENDENTE" then { p1 with status := "EM PREPARO" } else p1
  { raised := none, pedido := p2, logs := [⟨u, "Confirmou PIX", some p2.id⟩] }

/-- Embedding of `OrderController.assign_motoboy`: raises `ValueError` on a counter
(`"BALCÃO"`) order before touching any field; otherwise sets the
courier, sets the status when a truthy status string is supplied, saves
and logs. -/
def assign_motoboy (u : String) (p : Pedido) (m : Motoboy)
    (status : Option String) : OpResult :=
  if pyUpper p.canal = "BALCÃO" then
    { raised := some "Pedido BALCÃO não pode receber motoboy.", pedido := p, logs := [] }
  else
    let p1 : Pedido := { p with motoboy := some m }
    let p2 : Pedido :=
      match status with
      | some s => if s.isEmpty then p1 else { p1 with status := s }
      | none => p1
    { raised := none, pedido := p2,
      logs := [⟨u, "Atribuiu motoboy " ++ m.nome, some p2.id⟩] }

/-- Embedding of `OrderController.receive_payment`: sets `forma_pagamento = "PAGO"`,
saves and logs. -/
def receive_payment (u : String) (p : Pedido) : OpResult :=
  let p1 : Pedido := { p with forma_pagamento := "PAGO" }
  { raised := none, pedido := p1, logs := [⟨u, "Recebeu pagamento", some p1.id⟩] }

/-- Embedding of `OrderController.update_observation`: sets `observacao` to the given
text unconditionally, saves and logs. -/
def update_observation (u : String) (p : Pedido) (obs : String) : OpResult :=
  let p1 : Pedido := { p with observacao := some obs }
  { raised := none, pedido := p1, logs := [⟨u, "Atualizou observação", some p1.id⟩] }

/-- Embedding of `ActionPanelWindow.save_observation`: strips the entry text; only a
non-blank result is forwarded to `update_observation`, otherwise nothing
happens. -/
def save_observation (u : String) (p : Pedido) (raw : String) : OpResult :=
  let txt := pyStrip raw
  if txt.isEmpty then { raised := none, pedido := p, logs := [] }
  else update_observation u p txt

/-- Embedding of `ActionPanelWindow.cancel_order`: sets `status = "CANCELADO"`
unconditionally (directly on the row, in the UI layer), saves, then logs
`"Cancelou pedido"` through the controller. -/
def cancel_order (u : String) (p : Pedido) : OpResult :=
  let p1 : Pedido := { p with status := "CANCELADO" }
  { raised := none, pedido := p1, logs := [⟨u, "Cancelou pedido", some p1.id⟩] }

/-- Embedding of `Dashboard.open_new_order.save_order`, after the caller has parsed
the numeric entries: customer falls back to `"Cliente"` when blank, the
delivery fee is zeroed for counter orders, the status and
`pix_confirmado` are derived from the payment method, and the total is
the sum of the two amounts.  `newId` stands for the `AutoField` id. -/
def save_order (newId : Nat) (cliente canal : String) (bairro : Option String)
    (vp tx : Rat) (fp : String) : Pedido :=
  let c := if (pyStrip cliente).isEmpty then "Cliente" else pyStrip cliente
  let tx2 := if pyUpper canal = "BALCÃO" then 0 else tx
  { id := newId
    cliente := c
    canal := canal
    status := if fp = "PIX" then "PIX PENDENTE" else "NOVO"
    valor_produtos := vp
    taxa_entrega := tx2
    valor_total := vp + tx2
    bairro := bairro
    motoboy := none
    forma_pagamento := fp
    pix_confirmado := fp ≠ "PIX"
    observacao := none }

/-- Alert derivation of `OrderCard.refresh_ui_content`: the imperative
accumulation of `alert_texts`, in source order. -/
def derive_alerts (p : Pedido) : List String :=
  let ts : List String := []
  let ts := if pyUpper p.forma_pagamento = "PIX" ∧ p.pix_confirmado = false
            then ts ++ ["⚠️ PIX PENDENTE"] else ts
  let ts := if pyUpper p.canal = "BALCÃO" ∧ pyUpper p.forma_pagamento = "A RECEBER"
            then ts ++ ["💰 PAGAR NA RETIRADA"] else ts
  let ts := if obsTruthy p.observacao then ts ++ ["❗ VER OBS"] else ts
  ts

/-- The alert sequence as the spec describes it: three fixed-order
segments, each present exactly under its stated condition. -/
def derive_alerts_spec (p : Pedido) : List String :=
  (if pyUpper p.forma_pagamento = "PIX" ∧ p.pix_confirmado = false
   then ["⚠️ PIX PENDENTE"] else [])
  ++ (if pyUpper p.canal = "BALCÃO" ∧ pyUpper p.forma_pagamento = "A RECEBER"
      then ["💰 PAGAR NA RETIRADA"] else [])
  ++ (if obsTruthy p.observacao then ["❗ VER OBS"] else [])

/-- The dashboard state the route assignment session lives in: the two
session fields of `Dashboard` (`route_mode_active`, `route_motoboy`),
the persisted orders (indexed by position), and the audit log table. -/
structure DashState where
  route_mode_active : Bool
  route_motoboy : Option Motoboy
  orders : List Pedido
  logs : List LogAtividade
deriving DecidableEq, Repr

/-- Embedding of `Dashboard.active_motoboys_names`: names of the couriers whose
`ativo` flag is set, in table order. -/
def active_motoboys_names (db : List Motoboy) : List String :=
  (db.filter (fun m => m.ativo)).map (fun m => m.nome)

/-- Embedding of `Motoboy.get(Motoboy.nome == n)`: first row with that name. -/
def motoboy_get_by_name (db : List Motoboy) (n : String) : Option Motoboy :=
  db.find? (fun m => m.nome == n)

/-- Embedding of `Dashboard.toggle_route_mode`: deactivation always clears the held
courier; activation aborts when no courier is active, else holds the
courier named first in `active_motoboys_names` — the operator is never
asked to choose. -/
def toggle_route_mode (db : List Motoboy) (st : DashState) : DashState :=
  if st.route_mode_active then
    { st with route_mode_active := false, route_motoboy := none }
  else
    match active_motoboys_names db with
    | [] => st
    | n :: _ =>
      { st with route_mode_active := true, route_motoboy := motoboy_get_by_name db n }

/-- Embedding of `Dashboard.route_assign_order` on the order at index `i`: a no-op
unless the session is active with a held courier; routes the selection
through `assign_motoboy` with `status="EM ROTA"`; an exception is shown
as a toast and changes nothing (session included). -/
def route_assign_order (u : String) (st : DashState) (i : Nat) : DashState :=
  if st.route_mode_active = false then st
  else
    match st.route_motoboy with
    | none => st
    | some m =>
      match st.orders[i]? with
      | none => st
      | some p =>
        let r := assign_motoboy u p m (some "EM ROTA")
        match r.raised with
        | some _ => st
        | none => { st with orders := st.orders.set i r.pedido, logs := st.logs ++ r.logs }

/-- The controller's mutation operations as a closed syntax, used to
express which order states are reachable through the controller. -/
inductive CtrlOp where
  | confirmPix : CtrlOp
  | assignMotoboy : Motoboy → Option String → CtrlOp
  | receivePayment : CtrlOp
  | updateObservation : String → CtrlOp
deriving DecidableEq, Repr

/-- Interpretation of a `CtrlOp` by the `OrderController` methods. -/
def applyCtrl (u : String) (op : CtrlOp) (p : Pedido) : OpResult :=
  match op with
  | .confirmPix => confirm_pix u p
  | .assignMotoboy m st => assign_motoboy u p m st
  | .receivePayment => receive_payment u p
  | .updateObservation obs => update_observation u p obs

/-! Concrete rows, mirroring the `seed_data` fixtures, used to
instantiate the theorems below on explicit inputs. -/

/-- The seeded courier "Carlos", active. -/
def carlos : Motoboy := ⟨"Carlos", true⟩

/-- The seeded WhatsApp PIX order of Ana Souza. -/
def anaPedido : Pedido :=
  ⟨1, "Ana Souza", "WhatsApp", "PIX PENDENTE", 42, 5, 47, some "Centro",
   none, "PIX", false, some "Sem cebola"⟩

/-- The seeded counter order of Marcos Lima. -/
def balcaoPedido : Pedido :=
  ⟨2, "Marcos Lima", "BALCÃO", "NOVO", 25, 0, 25, some "Centro",
   none, "A RECEBER", true, none⟩

/-- A cash (non-PIX) delivery order. -/
def dinheiroPedido : Pedido :=
  ⟨3, "Bia", "WhatsApp", "NOVO", 10, 2, 12, none, none, "DINHEIRO", true, none⟩

end BDF

namespace BDF

/-- C1 (counterexample): `dinheiroPedido` pays by `DINHEIRO`, not PIX,
yet `confirm_pix` on it returns normally (`raised = none`) — the source
has no payment-method guard, so the claimed "raises `InvalidOperation`
if and only if the payment method is not PIX" fails in the only-if
direction at this input. -/
theorem c1_cex_confirm_pix_nonpix_succeeds :
    pyUpper dinheiroPedido.forma_pagamento ≠ "PIX"
    ∧ (confirm_pix "admin" dinheiroPedido).raised = none := by
  exact ⟨by decide, rfl⟩

/-- C1 (amended): `confirm_pix` never raises, whatever the order's
payment method — the method check lives in the UI (the confirm button is
disabled for non-PIX or already-confirmed orders), not in the
controller; on a PIX order it therefore never fails, and calling it
again when `pix_confirmado` is already true is silently allowed (the
flag simply stays true). -/
theorem confirm_pix_never_raises (u : String) (p : Pedido) :
    (confirm_pix u p).raised = none
    ∧ (confirm_pix u p).pedido.pix_confirmado = true := by
  refine ⟨rfl, ?_⟩
  unfold confirm_pix
  dsimp only
  split <;> rfl

/-- C2: on a counter (`BALCÃO`) order, `assign_motoboy` raises
`ValueError` before assigning anything: the returned row equals the
input row (so the courier stays `none` and the status is untouched) and
no `LogAtividade` row is appended. -/
theorem assign_motoboy_balcao_fails (u : String) (p : Pedido) (m : Motoboy)
    (st : Option String) (h : pyUpper p.canal = "BALCÃO") :
    (assign_motoboy u p m st).raised = some "Pedido BALCÃO não pode receber motoboy."
    ∧ (assign_motoboy u p m st).pedido = p
    ∧ (assign_motoboy u p m st).logs = [] := by
  unfold assign_motoboy
  rw [if_pos h]
  exact ⟨rfl, rfl, rfl⟩

/-- C2 (witness): instantiated on the seeded counter order and courier
Carlos with the route-session status. -/
theorem assign_motoboy_balcao_fails_witness :
    (assign_motoboy "admin" balcaoPedido carlos (some "EM ROTA")).raised
      = some "Pedido BALCÃO não pode receber motoboy."
    ∧ (assign_motoboy "admin" balcaoPedido carlos (some "EM ROTA")).pedido = balcaoPedido
    ∧ (assign_motoboy "admin" balcaoPedido carlos (some "EM ROTA")).logs = [] :=
  assign_motoboy_balcao_fails "admin" balcaoPedido carlos (some "EM ROTA") (by decide)

/-- C3: a freshly constructed order has `valor_total` equal to the sum
of `valor_produtos` and the stored `taxa_entrega`; the fee is zeroed
exactly on counter orders, regardless of the entered fee; the status is
`PIX PENDENTE` exactly for PIX payment (else `NOVO`); and
`pix_confirmado` holds exactly for non-PIX payment. -/
theorem save_order_construction (newId : Nat) (cliente canal : String)
    (bairro : Option String) (vp tx : Rat) (fp : String) :
    (save_order newId cliente canal bairro vp tx fp).valor_total
      = (save_order newId cliente canal bairro vp tx fp).valor_produtos
        + (save_order newId cliente canal bairro vp tx fp).taxa_entrega
    ∧ (save_order newId cliente canal bairro vp tx fp).taxa_entrega
      = (if pyUpper canal = "BALCÃO" then 0 else tx)
    ∧ (save_order newId cliente canal bairro vp tx fp).status
      = (if fp = "PIX" then "PIX PENDENTE" else "NOVO")
    ∧ ((save_order newId cliente canal bairro vp tx fp).pix_confirmado = true
        ↔ ¬ fp = "PIX") := by
  unfold save_order
  refine ⟨rfl, rfl, rfl, ?_⟩
  exact decide_eq_true_iff

/-- C4: on a PIX order, `confirm_pix` sets `pix_confirmado`, advances
the status to `EM PREPARO` exactly when it was `PIX PENDENTE` (leaving
it unchanged otherwise, so the whole call can change no field), and in
every case appends exactly one log row for the action. -/
theorem confirm_pix_pix_order (u : String) (p : Pedido)
    (_h : pyUpper p.forma_pagamento = "PIX") :
    (confirm_pix u p).pedido =
      (if p.status = "PIX PENDENTE"
       then { p with pix_confirmado := true, status := "EM PREPARO" }
       else { p with pix_confirmado := true })
    ∧ (confirm_pix u p).logs = [⟨u, "Confirmou PIX", some p.id⟩] := by
  unfold confirm_pix
  dsimp only
  split <;> exact ⟨rfl, rfl⟩

/-- C4 (witness): on the seeded pending PIX order the status advances to
`EM PREPARO`, the flag is set, and one log row is appended. -/
theorem confirm_pix_pix_order_witness :
    (confirm_pix "admin" anaPedido).pedido.status = "EM PREPARO"
    ∧ (confirm_pix "admin" anaPedido).pedido.pix_confirmado = true
    ∧ (confirm_pix "admin" anaPedido).logs = [⟨"admin", "Confirmou PIX", some 1⟩] := by
  have h := confirm_pix_pix_order "admin" anaPedido (by decide)
  rw [if_pos (by decide : anaPedido.status = "PIX PENDENTE")] at h
  exact ⟨by rw [h.1], by rw [h.1], h.2⟩

/-- C5: each of the five mutation operations appends exactly one
`LogAtividade` row on success, and that row carries the acting user and
the id of the mutated order; the one failing case (courier assignment on
a counter order) appends none. -/
theorem mutations_log_exactly_once (u : String) (p : Pedido) (m : Motoboy)
    (st : Option String) (obs : String) :
    (confirm_pix u p).logs = [⟨u, "Confirmou PIX", some p.id⟩]
    ∧ (assign_motoboy u p m st).logs =
        (if pyUpper p.canal = "BALCÃO" then []
         else [⟨u, "Atribuiu motoboy " ++ m.nome, some p.id⟩])
    ∧ (receive_payment u p).logs = [⟨u, "Recebeu pagamento", some p.id⟩]
    ∧ (update_observation u p obs).logs = [⟨u, "Atualizou observação", some p.id⟩]
    ∧ (cancel_order u p).logs = [⟨u, "Cancelou pedido", some p.id⟩] := by
  refine ⟨?_, ?_, rfl, rfl, rfl⟩
  · unfold confirm_pix
    dsimp only
    split <;> rfl
  · unfold assign_motoboy
    dsimp only
    split
    · rfl
    · cases st with
      | none => rfl
      | some s =>
        dsimp only
        split <;> rfl

/-- C6 (counterexample): the row left by the UI cancel of the seeded
counter order — status `CANCELADO`, everything else untouched — is not
the successful result of any controller operation on that order: the
controller is not the writer of the cancel mutation. -/
theorem c6_cex_cancel_not_a_controller_op :
    ¬ ∃ op : CtrlOp,
        (applyCtrl "admin" op balcaoPedido).raised = none
        ∧ (applyCtrl "admin" op balcaoPedido).pedido
            = (cancel_order "admin" balcaoPedido).pedido := by
  rintro ⟨op, hraised, hped⟩
  cases op with
  | confirmPix =>
    have hs := congrArg Pedido.status hped
    revert hs
    decide
  | assignMotoboy m st =>
    dsimp only [applyCtrl] at hraised
    unfold assign_motoboy at hraised
    rw [if_pos (by decide : pyUpper balcaoPedido.canal = "BALCÃO")] at hraised
    exact Option.noConfusion hraised
  | receivePayment =>
    have hs := congrArg Pedido.status hped
    revert hs
    decide
  | updateObservation obs =>
    have hs := congrArg Pedido.status hped
    simp only [applyCtrl, update_observation, cancel_order] at hs
    exact absurd hs (by decide)

/-- C6 (amended): every order mutation other than cancel goes through a
controller operation, but cancel is performed by the UI layer itself
(`ActionPanelWindow.cancel_order`): it writes `status = "CANCELADO"`
unconditionally and directly on the order row, changes nothing else,
never fails, and only the audit entry goes through the controller. -/
theorem cancel_order_is_direct_ui_write (u : String) (p : Pedido) :
    (cancel_order u p).raised = none
    ∧ (cancel_order u p).pedido = { p with status := "CANCELADO" }
    ∧ (cancel_order u p).logs = [⟨u, "Cancelou pedido", some p.id⟩] :=
  ⟨rfl, rfl, rfl⟩

/-- C7 (counterexample): the entry text `" guloso "` is neither empty
nor whitespace-only, yet saving it stores the stripped text `"guloso"`,
not the text itself — the claimed "sets the note to that text" fails at
this input. -/
theorem c7_cex_annotate_strips_text :
    (" guloso " : String).isEmpty = false
    ∧ (pyStrip " guloso ").isEmpty = false
    ∧ (save_observation "admin" anaPedido " guloso ").pedido.observacao = some "guloso"
    ∧ (save_observation "admin" anaPedido " guloso ").pedido.observacao
        ≠ some " guloso " := by
  refine ⟨rfl, by decide, ?_, ?_⟩ <;> decide

/-- C7 (amended): annotation first strips surrounding whitespace from
the entry text; when something remains it sets the note to that
stripped text (and logs once), and when the text is empty or
whitespace-only it leaves the order untouched, appends no log, and does
not fail. -/
theorem save_observation_strips_and_skips_blank (u : String) (p : Pedido)
    (raw : String) :
    (save_observation u p raw).raised = none
    ∧ (save_observation u p raw).pedido =
        (if (pyStrip raw).isEmpty then p
         else { p with observacao := some (pyStrip raw) })
    ∧ (save_observation u p raw).logs.length =
        (if (pyStrip raw).isEmpty then 0 else 1) := by
  unfold save_observation update_observation
  dsimp only
  split <;> exact ⟨rfl, rfl, rfl⟩

/-- C9: the alert list of `refresh_ui_content` is a pure function of
the order row (calling it twice on the same row trivially yields the
same sequence) and equals the spec's fixed-order three-segment list;
each tag is present exactly under its stated condition. -/
theorem derive_alerts_correct (p : Pedido) :
    derive_alerts p = derive_alerts_spec p
    ∧ (("⚠️ PIX PENDENTE" ∈ derive_alerts p)
        ↔ (pyUpper p.forma_pagamento = "PIX" ∧ p.pix_confirmado = false))
    ∧ (("💰 PAGAR NA RETIRADA" ∈ derive_alerts p)
        ↔ (pyUpper p.canal = "BALCÃO" ∧ pyUpper p.forma_pagamento = "A RECEBER"))
    ∧ (("❗ VER OBS" ∈ derive_alerts p) ↔ obsTruthy p.observacao = true) := by
  unfold derive_alerts derive_alerts_spec
  split_ifs with h1 h2 h3 <;>
    simp_all [List.mem_append, List.mem_singleton]

/-- C8: with the session active and holding courier `m`, selecting the
order at index `i` keeps the session active with the same courier and
touches no other order; on a non-counter order the selection ends with
that courier and status `EM ROTA` plus one appended log row, while on a
counter order the controller failure changes nothing at all (the state,
session included, is exactly as before). -/
theorem route_session_assign (u : String) (st : DashState) (i : Nat)
    (m : Motoboy) (p : Pedido)
    (hact : st.route_mode_active = true)
    (hm : st.route_motoboy = some m)
    (hp : st.orders[i]? = some p) :
    (route_assign_order u st i).route_mode_active = true
    ∧ (route_assign_order u st i).route_motoboy = some m
    ∧ (∀ j, j ≠ i → (route_assign_order u st i).orders[j]? = st.orders[j]?)
    ∧ (pyUpper p.canal = "BALCÃO" → route_assign_order u st i = st)
    ∧ (¬ pyUpper p.canal = "BALCÃO" →
        (route_assign_order u st i).orders[i]?
          = some { p with motoboy := some m, status := "EM ROTA" }
        ∧ (route_assign_order u st i).logs
          = st.logs ++ [⟨u, "Atribuiu motoboy " ++ m.nome, some p.id⟩]) := by
  have hlen : i < st.orders.length := by
    by_contra hge
    rw [List.getElem?_eq_none (Nat.le_of_not_lt hge)] at hp
    exact Option.noConfusion hp
  unfold route_assign_order
  rw [if_neg (show ¬ st.route_mode_active = false by simp [hact]), hm, hp]
  dsimp only
  unfold assign_motoboy
  by_cases hb : pyUpper p.canal = "BALCÃO"
  · rw [if_pos hb]
    dsimp only
    exact ⟨hact, hm, fun j hj => rfl, fun _ => rfl, fun hc => absurd hb hc⟩
  · rw [if_neg hb]
    dsimp only
    rw [if_neg (by decide : ¬ ("EM ROTA" : String).isEmpty = true)]
    dsimp only
    refine ⟨hact, rfl, ?_, fun hc => absurd hc hb, fun _ => ⟨?_, rfl⟩⟩
    · exact fun j hj => List.getElem?_set_ne (Ne.symm hj)
    · exact List.getElem?_set_eq_of_lt _ hlen

/-- C8 (witness): a session held by Carlos, applied to a two-order
store at index 0 (the non-counter seeded PIX order): the selected order
ends with courier Carlos and status `EM ROTA`, one log row is appended,
the session stays active with Carlos, and the order at index 1 is
untouched. -/
theorem route_session_assign_witness :
    (route_assign_order "admin" ⟨true, some carlos, [anaPedido, balcaoPedido], []⟩ 0).orders[0]?
      = some { anaPedido with motoboy := some carlos, status := "EM ROTA" }
    ∧ (route_assign_order "admin" ⟨true, some carlos, [anaPedido, balcaoPedido], []⟩ 0).logs
      = [⟨"admin", "Atribuiu motoboy Carlos", some 1⟩]
    ∧ (route_assign_order "admin" ⟨true, some carlos, [anaPedido, balcaoPedido], []⟩ 0).route_mode_active
      = true
    ∧ (route_assign_order "admin" ⟨true, some carlos, [anaPedido, balcaoPedido], []⟩ 0).route_motoboy
      = some carlos
    ∧ (route_assign_order "admin" ⟨true, some carlos, [anaPedido, balcaoPedido], []⟩ 0).orders[1]?
      = some balcaoPedido := by
  have h := route_session_assign "admin" ⟨true, some carlos, [anaPedido, balcaoPedido], []⟩
    0 carlos anaPedido rfl rfl rfl
  have hb : ¬ pyUpper anaPedido.canal = "BALCÃO" := by decide
  refine ⟨(h.2.2.2.2 hb).1, ?_, h.1, h.2.1, h.2.2.1 1 (by decide)⟩
  exact (h.2.2.2.2 hb).2

/-- Looking up the head of the active-courier sublist by name returns
exactly that row, provided courier names are unique (the `Motoboy.nome`
column carries a UNIQUE constraint). -/
theorem find_head_active_aux :
    ∀ (db : List Motoboy), (db.map (fun m => m.nome)).Nodup →
      ∀ m0 : Motoboy, (db.filter (fun x => x.ativo)).head? = some m0 →
        motoboy_get_by_name db m0.nome = some m0 := by
  intro db
  induction db with
  | nil => intro _ m0 h; exact absurd h (by simp)
  | cons a l ih =>
    intro hnd m0 h
    simp only [List.map_cons, List.nodup_cons] at hnd
    by_cases ha : a.ativo
    · rw [List.filter_cons_of_pos (by simpa using ha)] at h
      rw [List.head?_cons, Option.some_inj] at h
      subst h
      unfold motoboy_get_by_name
      rw [List.find?_cons_of_pos _ (by simp)]
    · rw [List.filter_cons_of_neg (by simpa using ha)] at h
      have hm0l : m0 ∈ l := by
        cases hfl : l.filter (fun x => x.ativo) with
        | nil => rw [hfl] at h; exact absurd h (by simp)
        | cons b t =>
          rw [hfl] at h
          rw [List.head?_cons, Option.some_inj] at h
          subst h
          exact (List.mem_filter.mp (hfl ▸ List.mem_cons_self b t)).1
      have hneq : (a.nome == m0.nome) = false := by
        rw [beq_eq_false_iff_ne]
        intro he
        exact hnd.1 (he ▸ List.mem_map_of_mem (fun m => m.nome) hm0l)
      unfold motoboy_get_by_name
      rw [List.find?_cons_of_neg _ (by simp [hneq])]
      exact ih hnd.2 m0 h

/-- C10: activating the route session while at least one active courier
exists (and courier names are unique, as the schema enforces) always
holds the first courier of the persistence layer's active-courier list;
`toggle_route_mode` takes no choice from the operator — the held
courier is fully determined by the table. -/
theorem toggle_route_picks_first_active (db : List Motoboy) (st : DashState)
    (hinactive : st.route_mode_active = false)
    (hnd : (db.map (fun m => m.nome)).Nodup)
    (hsome : db.filter (fun m => m.ativo) ≠ []) :
    (toggle_route_mode db st).route_mode_active = true
    ∧ (toggle_route_mode db st).route_motoboy
      = (db.filter (fun m => m.ativo)).head? := by
  unfold toggle_route_mode
  rw [if_neg (by simp [hinactive])]
  cases hfl : db.filter (fun m => m.ativo) with
  | nil => exact absurd hfl hsome
  | cons m0 t =>
    have hnames : active_motoboys_names db = m0.nome :: t.map (fun m => m.nome) := by
      unfold active_motoboys_names
      rw [hfl, List.map_cons]
    rw [hnames]
    dsimp only
    refine ⟨rfl, ?_⟩
    rw [List.head?_cons]
    exact find_head_active_aux db hnd m0 (by rw [hfl, List.head?_cons])

/-- The courier table as seeded, with an extra inactive first row so
that "first active" differs from "first row". -/
def motoboyTable : List Motoboy :=
  [⟨"Zeca", false⟩, ⟨"Carlos", true⟩, ⟨"Renan", true⟩, ⟨"Maya", true⟩]

/-- C10 (witness): toggling the idle dashboard against `motoboyTable`
activates the session holding Carlos — the first *active* courier,
skipping the inactive first row. -/
theorem toggle_route_picks_first_active_witness :
    (toggle_route_mode motoboyTable ⟨false, none, [], []⟩).route_mode_active = true
    ∧ (toggle_route_mode motoboyTable ⟨false, none, [], []⟩).route_motoboy
      = some carlos := by
  have h := toggle_route_picks_first_active motoboyTable ⟨false, none, [], []⟩
    rfl (by decide) (by decide)
  exact ⟨h.1, by rw [h.2]; decide⟩

end BDF
